import Mathlib

/-!
Verification of the DEV.to news service with MongoDB telemetry exporters
(`app/main.py`, `app/telemetry.py`).

The Python source is shallowly embedded: pure data transformations become
Lean functions; effects (database inserts, error logging, metric counter
increments, the outbound HTTP call) are reified as explicit outcome
parameters and effect records, so that each handler/exporter is a total
Lean function of its inputs and of the outcome of its single database or
network operation.
-/

/-! ## Hexadecimal formatting — Python `format(n, "032x")` / `format(n, "016x")` -/

/-- Lowercase hexadecimal digit character for `n < 16`,
mirroring Python's `x` format type ('0'..'9', 'a'..'f'). -/
def hexDigitChar (n : Nat) : Char :=
  if n < 10 then Char.ofNat (48 + n) else Char.ofNat (87 + n)

/-- Hex digits of `n`, least significant first; empty for 0. -/
def natToHexRev (n : Nat) : List Char :=
  if h : n = 0 then []
  else hexDigitChar (n % 16) :: natToHexRev (n / 16)
decreasing_by exact Nat.div_lt_self (Nat.pos_of_ne_zero h) (by norm_num)

/-- Hex digit string of `n`, most significant first; `"0"` for 0
(Python `format(n, "x")`). -/
def natToHexDigits (n : Nat) : List Char :=
  if n = 0 then ['0'] else (natToHexRev n).reverse

/-- Python `format(n, "0{width}x")`: lowercase hex, left-padded with zeros
to a minimum of `width` characters. -/
def formatHexPad (width n : Nat) : String :=
  let ds := natToHexDigits n
  ⟨List.replicate (width - ds.length) '0' ++ ds⟩

/-- A character is one of the sixteen lowercase hexadecimal digits:
a decimal digit (code points 48-57) or one of 'a'..'f' (97-102). -/
def isLowerHexChar (c : Char) : Bool :=
  (48 ≤ c.toNat && c.toNat ≤ 57) || (97 ≤ c.toNat && c.toNat ≤ 102)

/-- `s` is a lowercase hexadecimal string of exactly `w` characters. -/
def hexIdOk (w : Nat) (s : String) : Bool :=
  s.toList.length = w && s.toList.all isLowerHexChar

/-! ## Attribute values and `_serialize_attributes` (telemetry.py 107-114) -/

/-- Scalar attribute value (string / int / bool); floats do not occur in
the attribute values this service emits. -/
inductive Scalar where
  | s (v : String)
  | i (v : Int)
  | b (v : Bool)
deriving DecidableEq, Repr

/-- An attribute value as the exporters receive it: a scalar, a Python
list, or a Python tuple of scalars. -/
inductive AttrValue where
  | scalar (v : Scalar)
  | arr (vs : List Scalar)
  | tup (vs : List Scalar)
deriving DecidableEq, Repr

/-- `_serialize_attributes` body for one value: `list` and `tuple` become
`list`, everything else passes through. -/
def serializeValue : AttrValue → AttrValue
  | .scalar v => .scalar v
  | .arr vs => .arr vs
  | .tup vs => .arr vs

/-- `_serialize_attributes` (telemetry.py 107-114): normalize each value
of a string-keyed attribute mapping. -/
def serialize_attributes (attrs : List (String × AttrValue)) : List (String × AttrValue) :=
  attrs.map (fun kv => (kv.1, serializeValue kv.2))

/-! ## Span data model (opentelemetry SDK inputs to `MongoSpanExporter`) -/

/-- SDK `SpanContext`: numeric trace/span identifiers plus trace state
(rendered by `to_header()`, modelled as the already-rendered string). -/
structure SpanContext where
  trace_id : Nat
  span_id : Nat
  trace_state : String
deriving DecidableEq, Repr

inductive SpanKind where
  | INTERNAL | SERVER | CLIENT | PRODUCER | CONSUMER
deriving DecidableEq, Repr

/-- `.name` of a `SpanKind` member. -/
def SpanKind.label : SpanKind → String
  | .INTERNAL => "INTERNAL"
  | .SERVER => "SERVER"
  | .CLIENT => "CLIENT"
  | .PRODUCER => "PRODUCER"
  | .CONSUMER => "CONSUMER"

inductive StatusCode where
  | UNSET | OK | ERROR
deriving DecidableEq, Repr

/-- `.name` of a `StatusCode` member. -/
def StatusCode.label : StatusCode → String
  | .UNSET => "UNSET"
  | .OK => "OK"
  | .ERROR => "ERROR"

structure SpanEvent where
  name : String
  timestamp : Nat
  attributes : List (String × AttrValue)
deriving DecidableEq, Repr

structure SpanLink where
  context : SpanContext
  attributes : Option (List (String × AttrValue))
deriving DecidableEq, Repr

/-- SDK `ReadableSpan` as consumed by `MongoSpanExporter.export`. -/
structure ReadableSpan where
  name : String
  context : SpanContext
  parent : Option SpanContext
  kind : SpanKind
  start_time : Nat
  end_time : Nat
  status_code : StatusCode
  status_description : Option String
  attributes : List (String × AttrValue)
  events : List SpanEvent
  links : List SpanLink
deriving DecidableEq, Repr

/-! ## Span documents (telemetry.py 123-166) -/

structure SpanDocContext where
  trace_id : String
  span_id : String
  trace_state : String
deriving DecidableEq, Repr

structure EventDoc where
  name : String
  timestamp : Nat
  attributes : List (String × AttrValue)
deriving DecidableEq, Repr

structure LinkDocContext where
  trace_id : String
  span_id : String
deriving DecidableEq, Repr

structure LinkDoc where
  context : LinkDocContext
  attributes : List (String × AttrValue)
deriving DecidableEq, Repr

structure StatusDoc where
  status_code : String
  description : Option String
deriving DecidableEq, Repr

/-- One span document as built inside `MongoSpanExporter.export`. -/
structure SpanDoc where
  name : String
  context : SpanDocContext
  parent_span_id : Option String
  kind : String
  start_time : Nat
  end_time : Nat
  status : StatusDoc
  attributes : List (String × AttrValue)
  events : List EventDoc
  links : List LinkDoc
deriving DecidableEq, Repr

/-- The document built for one span (loop body, telemetry.py 125-166). -/
def spanToDocument (span : ReadableSpan) : SpanDoc :=
  { name := span.name
    context :=
      { trace_id := formatHexPad 32 span.context.trace_id
        span_id := formatHexPad 16 span.context.span_id
        trace_state := span.context.trace_state }
    parent_span_id := span.parent.map (fun p => formatHexPad 16 p.span_id)
    kind := span.kind.label
    start_time := span.start_time
    end_time := span.end_time
    status := { status_code := span.status_code.label
                description := span.status_description }
    attributes := serialize_attributes span.attributes
    events := span.events.map (fun e =>
      { name := e.name
        timestamp := e.timestamp
        attributes := serialize_attributes e.attributes })
    links := span.links.map (fun l =>
      { context :=
          { trace_id := formatHexPad 32 l.context.trace_id
            span_id := formatHexPad 16 l.context.span_id }
        attributes := serialize_attributes (l.attributes.getD []) }) }

/-- The full `documents` list built by `MongoSpanExporter.export`. -/
def exportDocuments (spans : List ReadableSpan) : List SpanDoc :=
  spans.map spanToDocument

/-! ## MongoSpanExporter.export effects (telemetry.py 168-177) -/

/-- A `pymongo.errors.PyMongoError` raised by an insert. -/
structure PyMongoError where
  msg : String
deriving DecidableEq, Repr

/-- Outcome of the single database insert attempted by an exporter:
either the insert succeeds or it raises a `PyMongoError`. -/
inductive DbOutcome where
  | ok
  | err (e : PyMongoError)
deriving DecidableEq, Repr

inductive SpanExportResult where
  | SUCCESS | FAILURE
deriving DecidableEq, Repr

/-- Observable side effects of one `export` call: how many bulk
`insert_many` calls were issued, which documents were handed to them,
and how many errors were logged via `logger.exception`. -/
structure SpanExportFx where
  insertCalls : Nat
  insertedDocs : List SpanDoc
  errorsLogged : Nat
deriving DecidableEq, Repr

/-- `MongoSpanExporter.export` (telemetry.py 123-177). The function is
total: no exception escapes to the SDK caller; the `PyMongoError` branch
is absorbed into a logged error plus a `FAILURE` result. -/
def MongoSpanExporter.export (spans : List ReadableSpan) (db : DbOutcome) :
    SpanExportResult × SpanExportFx :=
  let documents := exportDocuments spans
  if documents.isEmpty then
    (.SUCCESS, { insertCalls := 0, insertedDocs := [], errorsLogged := 0 })
  else
    match db with
    | .ok => (.SUCCESS, { insertCalls := 1, insertedDocs := documents, errorsLogged := 0 })
    | .err _ => (.FAILURE, { insertCalls := 1, insertedDocs := documents, errorsLogged := 1 })

/-! ## Metric data model and `MongoMetricExporter` (telemetry.py 180-242) -/

/-- One SDK metric data point. `fields` holds the numeric attributes
actually present on the point object (e.g. `value` for a number point;
`count`, `sum`, `bucket_counts`, `boundaries`, ... for a histogram
point): `hasattr(point, n)` is membership of `n` among the keys, and
`getattr(point, n)` is the looked-up value. -/
structure MetricPoint where
  time_unix_nano : Option Nat
  start_time_unix_nano : Option Nat
  attributes : List (String × AttrValue)
  fields : List (String × AttrValue)
deriving DecidableEq, Repr

structure Metric where
  name : String
  description : String
  unit : String
  data_points : List MetricPoint
deriving DecidableEq, Repr

structure InstrumentationScope where
  name : String
  version : Option String
deriving DecidableEq, Repr

structure ScopeMetrics where
  scope : InstrumentationScope
  metrics : List Metric
deriving DecidableEq, Repr

structure ResourceMetrics where
  resource_attributes : List (String × AttrValue)
  scope_metrics : List ScopeMetrics
deriving DecidableEq, Repr

/-- SDK `MetricsData` snapshot handed to `MongoMetricExporter.export`. -/
structure MetricsData where
  resource_metrics : List ResourceMetrics
deriving DecidableEq, Repr

/-- The per-point payload dict (telemetry.py 205-214). -/
structure PointDoc where
  time_unix_nano : Option Nat
  start_time_unix_nano : Option Nat
  attributes : List (String × AttrValue)
  fields : List (String × AttrValue)
deriving DecidableEq, Repr

/-- The fixed probe order of numeric datapoint fields (telemetry.py 210). -/
def metricFieldNames : List String :=
  ["value", "count", "sum", "min", "max", "last", "bucket_counts", "boundaries"]

/-- Python `list(value) if isinstance(value, (list, tuple)) else value`
applied to a numeric point field. -/
def normalizePointField : AttrValue → AttrValue
  | .scalar v => .scalar v
  | .arr vs => .arr vs
  | .tup vs => .arr vs

/-- Build one point payload (telemetry.py 204-214): fixed metadata plus
every probed field that is present on the point, in probe order. -/
def pointToDoc (p : MetricPoint) : PointDoc :=
  { time_unix_nano := p.time_unix_nano
    start_time_unix_nano := p.start_time_unix_nano
    attributes := serialize_attributes p.attributes
    fields := metricFieldNames.filterMap (fun n =>
      match p.fields.lookup n with
      | none => none
      | some v => some (n, normalizePointField v)) }

/-- One metric document (telemetry.py 216-225). -/
structure MetricDoc where
  name : String
  description : String
  unit : String
  resource : List (String × AttrValue)
  instrumentation_scope : InstrumentationScope
  data : List PointDoc
deriving DecidableEq, Repr

/-- The flattened `documents` list built by `MongoMetricExporter.export`
(telemetry.py 193-225): one document per metric per scope per resource,
appended unconditionally — also when the metric has no data points. -/
def metricDocuments (md : MetricsData) : List MetricDoc :=
  md.resource_metrics.flatMap (fun rm =>
    rm.scope_metrics.flatMap (fun sm =>
      sm.metrics.map (fun m =>
        { name := m.name
          description := m.description
          unit := m.unit
          resource := serialize_attributes rm.resource_attributes
          instrumentation_scope := { name := sm.scope.name, version := sm.scope.version }
          data := m.data_points.map pointToDoc })))

/-- Every metric of the snapshot, in document order. -/
def allMetrics (md : MetricsData) : List Metric :=
  md.resource_metrics.flatMap (fun rm => rm.scope_metrics.flatMap (fun sm => sm.metrics))

inductive MetricExportResult where
  | SUCCESS | FAILURE
deriving DecidableEq, Repr

structure MetricExportFx where
  insertCalls : Nat
  insertedDocs : List MetricDoc
  errorsLogged : Nat
deriving DecidableEq, Repr

/-- `MongoMetricExporter.export` (telemetry.py 187-236). -/
def MongoMetricExporter.export (md : MetricsData) (db : DbOutcome) :
    MetricExportResult × MetricExportFx :=
  let documents := metricDocuments md
  if documents.isEmpty then
    (.SUCCESS, { insertCalls := 0, insertedDocs := [], errorsLogged := 0 })
  else
    match db with
    | .ok => (.SUCCESS, { insertCalls := 1, insertedDocs := documents, errorsLogged := 0 })
    | .err _ => (.FAILURE, { insertCalls := 1, insertedDocs := documents, errorsLogged := 1 })

/-! ## Log records and `MongoLoggingHandler.emit` (telemetry.py 72-93) -/

/-- The parts of a `logging.LogRecord` the handler reads. -/
structure LogRecord where
  name : String
  levelname : String
  message : String
  created : Nat
  pathname : String
  lineno : Nat
  funcName : String
  process : Option Nat
  thread : Option Nat
  module : String
  processName : String
  args : Option (List AttrValue)
  exc_text : Option String
deriving DecidableEq, Repr

/-- The log document built by `emit` (telemetry.py 75-91). -/
structure LogDoc where
  logger : String
  level : String
  message : String
  created_at : Nat
  pathname : String
  lineno : Nat
  funcName : String
  process : Option Nat
  thread : Option Nat
  module : String
  processName : String
  args : Option (List AttrValue)
  exc_text : Option String
deriving DecidableEq, Repr

def logRecordToDoc (r : LogRecord) : LogDoc :=
  { logger := r.name
    level := r.levelname
    message := r.message
    created_at := r.created
    pathname := r.pathname
    lineno := r.lineno
    funcName := r.funcName
    process := r.process
    thread := r.thread
    module := r.module
    processName := r.processName
    args := r.args
    exc_text := r.exc_text }

/-- What one `emit` call did: either the single-document insert went
through, or the `PyMongoError` was absorbed and routed to
`self.handleError(record)` — the logging subsystem's own error path.
`emit` is total: no exception propagates past its boundary. -/
inductive EmitOutcome where
  | inserted (doc : LogDoc)
  | errorHandled (record : LogRecord)
deriving DecidableEq, Repr

/-- `MongoLoggingHandler.emit` (telemetry.py 73-93). -/
def MongoLoggingHandler.emit (record : LogRecord) (db : DbOutcome) : EmitOutcome :=
  match db with
  | .ok => .inserted (logRecordToDoc record)
  | .err _ => .errorHandled record

/-! ## Mongo client construction and caching (telemetry.py 32-66) -/

/-- The Mongo-related environment variables read by `_mongo_client` and
`_mongo_database`. Each is `none` when unset. `MONGO_PORT` is kept as
the already-parsed integer (its `int()` parse is not at issue here). -/
structure Env where
  MONGO_URI : Option String
  MONGO_HOST : Option String
  MONGO_PORT : Option Int
  MONGO_USERNAME : Option String
  MONGO_PASSWORD : Option String
  MONGO_AUTH_SOURCE : Option String
  MONGO_DB_NAME : Option String
deriving DecidableEq, Repr

/-- Python truthiness of `os.getenv(...)`: `None` and the empty string
are falsy. -/
def truthy : Option String → Bool
  | none => false
  | some s => !(s == "")

/-- A constructed `MongoClient`, recording exactly the arguments it was
built from: either the URI alone, or the discrete host/port with
optional credentials and auth source (telemetry.py 44, 53-59).
`tz_aware=True` is passed on both paths and carries no information. -/
inductive MongoClient where
  | fromUri (uri : String)
  | fromParts (host : String) (port : Int)
      (creds : Option (String × String)) (authSource : Option String)
deriving DecidableEq, Repr

/-- `_mongo_client` (telemetry.py 35-60). The module-global `_client`
cache is threaded explicitly: the function takes the cache before the
call and returns the chosen client together with the cache after the
call. -/
def mongo_client (env : Env) (cache : Option MongoClient) :
    MongoClient × Option MongoClient :=
  match cache with
  | some c => (c, some c)
  | none =>
    if truthy env.MONGO_URI then
      let c := MongoClient.fromUri (env.MONGO_URI.getD "")
      (c, some c)
    else
      let host := env.MONGO_HOST.getD "localhost"
      let port := env.MONGO_PORT.getD 27017
      let creds :=
        if truthy env.MONGO_USERNAME && truthy env.MONGO_PASSWORD then
          some (env.MONGO_USERNAME.getD "", env.MONGO_PASSWORD.getD "")
        else none
      let c := MongoClient.fromParts host port creds env.MONGO_AUTH_SOURCE
      (c, some c)

/-- `_mongo_database` (telemetry.py 63-66): the client plus the selected
database name. -/
def mongo_database (env : Env) (cache : Option MongoClient) :
    (MongoClient × String) × Option MongoClient :=
  let (c, cache) := mongo_client env cache
  ((c, env.MONGO_DB_NAME.getD "telemetry"), cache)

/-! ## `configure_telemetry` (telemetry.py 246-287) -/

/-- A named collection of a named database. -/
structure MongoCollection where
  client : MongoClient
  dbName : String
  collName : String
deriving DecidableEq, Repr

/-- The telemetry wiring `configure_telemetry` leaves behind: how many
startup errors were logged, which span exporters were attached to the
tracer provider (each wrapped in a `BatchSpanProcessor`), which metric
exporters were attached to the meter provider (each wrapped in a
`PeriodicExportingMetricReader`), and the target collection of the
MongoDB logging handler when one was installed on the root logger. -/
structure TelemetryWiring where
  errorsLogged : Nat
  spanExporterCollections : List MongoCollection
  metricExporterCollections : List MongoCollection
  logHandlerCollection : Option MongoCollection
deriving DecidableEq, Repr

/-- Collection-name environment variables read at the top of
`configure_telemetry` (telemetry.py 248-250). -/
structure CollEnv where
  MONGO_LOG_COLLECTION : Option String
  MONGO_TRACE_COLLECTION : Option String
  MONGO_METRIC_COLLECTION : Option String
deriving DecidableEq, Repr

/-- `configure_telemetry` (telemetry.py 246-287). `acq` is the outcome
of database-handle acquisition (`_mongo_database()` and the collection
lookups of the `try` block): `DbOutcome.err` means a `PyMongoError` was
raised there. On failure the error is logged once and bare providers are
returned — no exporter, no reader, no logging handler. On success the
three adapters are wired to their collections. -/
def configure_telemetry (env : Env) (cenv : CollEnv) (cache : Option MongoClient)
    (acq : DbOutcome) : TelemetryWiring :=
  match acq with
  | .err _ =>
    { errorsLogged := 1
      spanExporterCollections := []
      metricExporterCollections := []
      logHandlerCollection := none }
  | .ok =>
    let ((client, dbName), _) := mongo_database env cache
    { errorsLogged := 0
      spanExporterCollections :=
        [{ client := client, dbName := dbName
           collName := cenv.MONGO_TRACE_COLLECTION.getD "traces" }]
      metricExporterCollections :=
        [{ client := client, dbName := dbName
           collName := cenv.MONGO_METRIC_COLLECTION.getD "metrics" }]
      logHandlerCollection :=
        some { client := client, dbName := dbName
               collName := cenv.MONGO_LOG_COLLECTION.getD "logs" } }

/-! ## News endpoint (main.py 43-106) -/

/-- One raw article object of the upstream DEV.to JSON response, holding
the fields the projection reads (absent keys are `none`, matching
`article.get(...)`). -/
structure RawArticle where
  id : Option Int
  title : Option String
  url : Option String
  description : Option String
  published_at : Option String
  tags : Option AttrValue
  user_name : Option String
  user_username : Option String
deriving DecidableEq, Repr

/-- The reduced projection built for each article (main.py 58-71). -/
structure ArticleDoc where
  id : Option Int
  title : Option String
  url : Option String
  description : Option String
  published_at : Option String
  tags : Option AttrValue
  user_name : Option String
  user_username : Option String
deriving DecidableEq, Repr

def projectArticle (a : RawArticle) : ArticleDoc :=
  { id := a.id
    title := a.title
    url := a.url
    description := a.description
    published_at := a.published_at
    tags := a.tags
    user_name := a.user_name
    user_username := a.user_username }

/-- Outcome of the single outbound `client.get` + `raise_for_status`
(main.py 52-54): a 2xx/3xx response with a JSON article list, an
`httpx.HTTPStatusError` carrying the upstream error status, or an
`httpx.RequestError` (transport failure, no response at all). -/
inductive Upstream where
  | ok (articles : List RawArticle)
  | httpError (status : Nat)
  | transportError
deriving DecidableEq, Repr

/-- The successful `/news` response body (main.py 105). -/
structure NewsResponse where
  source : String
  tag : String
  count : Nat
  articles : List ArticleDoc
deriving DecidableEq, Repr

/-- What a `/news` request returns: the JSON body, or an `HTTPException`
with a status code and detail string (main.py 96-101), or the
framework-level 422 validation rejection. -/
inductive RouteResult where
  | success (body : NewsResponse)
  | httpError (status : Nat) (detail : String)
  | validationError (status : Nat)
deriving DecidableEq, Repr

/-- Ordered side effects of a `/news` request: metric counter additions
and the attempt of the outbound upstream call. -/
inductive FxEvent where
  | requestAdd (amount : Nat) (tag : String)
  | upstreamCall (tag : String) (per_page : Int)
  | articleAdd (amount : Nat) (tag : String)
deriving DecidableEq, Repr

/-- The `get_news` handler body (main.py 90-105), after parameter
validation: increments the request counter, attempts the upstream fetch,
and either reshapes the articles (incrementing the article counter by
their number) or converts the two `httpx` error classes into
`HTTPException`s. The returned list is the ordered trace of effects. -/
def get_news (tag : String) (per_page : Int) (upstream : Upstream) :
    RouteResult × List FxEvent :=
  let pre := [FxEvent.requestAdd 1 tag, FxEvent.upstreamCall tag per_page]
  match upstream with
  | .ok raw =>
    let articles := raw.map projectArticle
    (.success { source := "DEV.to", tag := tag, count := articles.length, articles := articles },
     pre ++ [FxEvent.articleAdd articles.length tag])
  | .httpError s =>
    (.httpError s "Upstream error from DEV.to API", pre)
  | .transportError =>
    (.httpError 502 "Unable to reach DEV.to API", pre)

/-- Modelled from the spec and the route declaration (main.py 87-89):
FastAPI's `Query(5, ge=1, le=30)` validation, which this repository
delegates to the framework. A missing `per_page` takes the default 5; a
value outside `[1, 30]` is rejected with a 422 validation error before
the handler body (and hence any outbound call) runs. -/
def validate_per_page : Option Int → Except Nat Int
  | none => .ok 5
  | some v => if 1 ≤ v && v ≤ 30 then .ok v else .error 422

/-- The full `/news` route: parameter defaulting and validation followed
by the handler body. A validation rejection produces no effects at all. -/
def news_route (tagParam : Option String) (perPageParam : Option Int)
    (upstream : Upstream) : RouteResult × List FxEvent :=
  let tag := tagParam.getD "technology"
  match validate_per_page perPageParam with
  | .error s => (.validationError s, [])
  | .ok per_page => get_news tag per_page upstream

/-! ## Concrete inputs used to instantiate hypotheses -/

/-- A sample span with a parent and a link, used as a concrete batch
element. -/
def sampleSpan : ReadableSpan :=
  { name := "devto.fetch_articles"
    context := { trace_id := 1, span_id := 2, trace_state := "" }
    parent := some { trace_id := 1, span_id := 4, trace_state := "" }
    kind := .INTERNAL
    start_time := 10
    end_time := 20
    status_code := .UNSET
    status_description := none
    attributes := [("devto.tag", .scalar (.s "technology"))]
    events := []
    links := [{ context := { trace_id := 5, span_id := 6, trace_state := "" }
                attributes := none }] }

/-- A metric with an empty data-point list, as the SDK may hand over. -/
def emptyPointMetric : Metric :=
  { name := "devto.news.requests", description := "", unit := "", data_points := [] }

/-- A metrics snapshot whose only metric has no data points. -/
def cexSnapshot : MetricsData :=
  { resource_metrics :=
      [{ resource_attributes := []
         scope_metrics := [{ scope := { name := "app.main", version := none }
                             metrics := [emptyPointMetric] }] }] }

/-- A sample upstream article. -/
def rawA : RawArticle :=
  { id := some 7, title := some "a title", url := some "https://dev.to/a"
    description := none, published_at := none, tags := none
    user_name := some "n", user_username := some "u" }

/-- The `/news` body produced for the batch `[rawA, rawA]`. -/
def newsBodyTwo : NewsResponse :=
  { source := "DEV.to", tag := "technology", count := 2
    articles := [projectArticle rawA, projectArticle rawA] }

/-- The `/news` body produced for the batch `[rawA]`. -/
def newsBodyOne : NewsResponse :=
  { source := "DEV.to", tag := "technology", count := 1
    articles := [projectArticle rawA] }

/-- A sample environment with `MONGO_URI` set alongside every discrete
setting. -/
def envW : Env :=
  { MONGO_URI := some "mongodb://db:27017"
    MONGO_HOST := some "otherhost"
    MONGO_PORT := some 4242
    MONGO_USERNAME := some "user"
    MONGO_PASSWORD := some "pass"
    MONGO_AUTH_SOURCE := some "admin"
    MONGO_DB_NAME := some "telemetry" }

/-! ## Range predicates for span identifiers -/

/-- The identifiers of a span context lie within their declared widths:
the trace identifier is 128-bit, the span identifier 64-bit
(`16 ^ 32 = 2 ^ 128`, `16 ^ 16 = 2 ^ 64`). -/
def ctxInRange (c : SpanContext) : Prop :=
  c.trace_id < 16 ^ 32 ∧ c.span_id < 16 ^ 16

/-- All numeric identifiers reachable from a span — own context, parent
context, link contexts — lie within their declared widths. -/
def spanIdsInRange (s : ReadableSpan) : Prop :=
  ctxInRange s.context ∧
  (∀ p ∈ s.parent, p.span_id < 16 ^ 16) ∧
  (∀ l ∈ s.links, ctxInRange l.context)
theorem hexDigitChar_lower (n : Nat) (h : n < 16) :
    isLowerHexChar (hexDigitChar n) = true := by
  interval_cases n <;> decide

theorem natToHexRev_all_lower (n : Nat) :
    (natToHexRev n).all isLowerHexChar = true := by
  induction n using Nat.strong_induction_on with
  | _ n ih =>
    rw [natToHexRev]
    split
    · rfl
    · rename_i h
      simp only [List.all_cons, Bool.and_eq_true]
      exact ⟨hexDigitChar_lower _ (Nat.mod_lt _ (by norm_num)),
             ih _ (Nat.div_lt_self (Nat.pos_of_ne_zero h) (by norm_num))⟩

theorem natToHexRev_length_le (k : Nat) : ∀ n, n < 16 ^ k → (natToHexRev n).length ≤ k := by
  induction k with
  | zero =>
    intro n hn
    interval_cases n
    simp [natToHexRev]
  | succ k ih =>
    intro n hn
    rw [natToHexRev]
    split
    · simp
    · rename_i h
      simp only [List.length_cons]
      have hdiv : n / 16 < 16 ^ k := by
        apply Nat.div_lt_of_lt_mul
        calc n < 16 ^ (k + 1) := hn
        _ = 16 * 16 ^ k := by ring
      exact Nat.succ_le_succ (ih _ hdiv)

theorem natToHexDigits_length_le (w n : Nat) (hw : 1 ≤ w) (hn : n < 16 ^ w) :
    (natToHexDigits n).length ≤ w := by
  unfold natToHexDigits
  split
  · simpa
  · rw [List.length_reverse]
    exact natToHexRev_length_le w n hn

theorem natToHexDigits_all_lower (n : Nat) :
    (natToHexDigits n).all isLowerHexChar = true := by
  unfold natToHexDigits
  split
  · decide
  · rw [List.all_reverse]
    exact natToHexRev_all_lower n

/-- Central hex-rendering lemma: for an identifier value within the
`w`-hex-digit range, `format(n, "0{w}x")` is a lowercase hex string of
exactly `w` characters. -/
theorem formatHexPad_ok (w n : Nat) (hw : 1 ≤ w) (hn : n < 16 ^ w) :
    hexIdOk w (formatHexPad w n) = true := by
  have hlen := natToHexDigits_length_le w n hw hn
  have hlow := natToHexDigits_all_lower n
  unfold formatHexPad hexIdOk
  simp only [String.toList, Bool.and_eq_true, decide_eq_true_eq]
  constructor
  · show (List.replicate _ '0' ++ _).length = w
    rw [List.length_append, List.length_replicate]
    omega
  · show (List.replicate _ '0' ++ _).all _ = true
    rw [List.all_append]
    simp only [Bool.and_eq_true]
    constructor
    · rw [List.all_eq_true]
      intro c hc
      rw [List.eq_of_mem_replicate hc]
      decide
    · exact hlow

/-! ## Claim theorems -/

/-- C1: for every span batch passed to `MongoSpanExporter.export`, every
span document produced carries a `trace_id` that is a lowercase hex
string of exactly 32 characters and a `span_id` of exactly 16 characters
(leading zeros preserved, for every identifier value within its declared
128/64-bit widths), and the same holds for the identifiers inside every
link's context and for `parent_span_id` whenever the span has a
parent. -/
theorem spanDocs_hex_ids (spans : List ReadableSpan)
    (h : ∀ s ∈ spans, spanIdsInRange s) :
    ∀ d ∈ exportDocuments spans,
      hexIdOk 32 d.context.trace_id = true ∧
      hexIdOk 16 d.context.span_id = true ∧
      (∀ p ∈ d.parent_span_id, hexIdOk 16 p = true) ∧
      (∀ l ∈ d.links,
        hexIdOk 32 l.context.trace_id = true ∧ hexIdOk 16 l.context.span_id = true) := by
  intro d hd
  rw [exportDocuments, List.mem_map] at hd
  obtain ⟨s, hs, rfl⟩ := hd
  obtain ⟨⟨ht, hsp⟩, hpar, hlinks⟩ := h s hs
  refine ⟨formatHexPad_ok 32 _ (by norm_num) ht,
          formatHexPad_ok 16 _ (by norm_num) hsp, ?_, ?_⟩
  · intro p hp
    simp only [spanToDocument, Option.mem_def, Option.map_eq_some'] at hp
    obtain ⟨pc, hpc, rfl⟩ := hp
    exact formatHexPad_ok 16 _ (by norm_num) (hpar pc hpc)
  · intro l hl
    simp only [spanToDocument, List.mem_map] at hl
    obtain ⟨l0, hl0, rfl⟩ := hl
    obtain ⟨hlt, hls⟩ := hlinks l0 hl0
    exact ⟨formatHexPad_ok 32 _ (by norm_num) hlt,
           formatHexPad_ok 16 _ (by norm_num) hls⟩

/-- C1 witness: the hypothesis and the conclusion hold at the concrete
batch `[sampleSpan]`. -/
theorem spanDocs_hex_ids_witness :
    spanIdsInRange sampleSpan ∧
    hexIdOk 32 (spanToDocument sampleSpan).context.trace_id = true ∧
    hexIdOk 16 (spanToDocument sampleSpan).context.span_id = true ∧
    (∀ p ∈ (spanToDocument sampleSpan).parent_span_id, hexIdOk 16 p = true) ∧
    (∀ l ∈ (spanToDocument sampleSpan).links,
      hexIdOk 32 l.context.trace_id = true ∧ hexIdOk 16 l.context.span_id = true) := by
  have hyp : ∀ s ∈ [sampleSpan], spanIdsInRange s := by
    intro s hs
    rw [List.mem_singleton] at hs
    subst hs
    refine ⟨⟨by norm_num [sampleSpan], by norm_num [sampleSpan]⟩, ?_, ?_⟩
    · intro p hp
      simp only [sampleSpan, Option.mem_def, Option.some_inj] at hp
      subst hp
      norm_num
    · intro l hl
      simp only [sampleSpan, List.mem_singleton] at hl
      subst hl
      exact ⟨by norm_num, by norm_num⟩
  have hmem : spanToDocument sampleSpan ∈ exportDocuments [sampleSpan] := by
    simp [exportDocuments]
  exact ⟨hyp sampleSpan (List.mem_singleton.mpr rfl),
         spanDocs_hex_ids [sampleSpan] hyp _ hmem⟩

/-- C2: `MongoSpanExporter.export` returns success with zero insert
calls on an empty batch; on a non-empty batch it issues exactly one bulk
insert, returning success when the insert succeeds, and on a raised
database error it logs the error once and returns failure — the
function is total, so no exception reaches the SDK caller. -/
theorem span_export_result (spans : List ReadableSpan) (h : spans ≠ []) :
    (∀ db, MongoSpanExporter.export [] db =
      (.SUCCESS, { insertCalls := 0, insertedDocs := [], errorsLogged := 0 })) ∧
    MongoSpanExporter.export spans .ok =
      (.SUCCESS, { insertCalls := 1, insertedDocs := exportDocuments spans,
                   errorsLogged := 0 }) ∧
    (∀ e, MongoSpanExporter.export spans (.err e) =
      (.FAILURE, { insertCalls := 1, insertedDocs := exportDocuments spans,
                   errorsLogged := 1 })) := by
  have hne : (exportDocuments spans).isEmpty = false := by
    cases spans with
    | nil => exact absurd rfl h
    | cons a l => simp [exportDocuments]
  refine ⟨fun db => by simp [MongoSpanExporter.export, exportDocuments], ?_, fun e => ?_⟩
  · simp [MongoSpanExporter.export, hne]
  · simp [MongoSpanExporter.export, hne]

/-- C2 witness: the three outcomes at the concrete batch `[sampleSpan]`
and a concrete database error. -/
theorem span_export_result_witness :
    ([sampleSpan] ≠ ([] : List ReadableSpan)) ∧
    (MongoSpanExporter.export [sampleSpan] .ok).1 = .SUCCESS ∧
    (MongoSpanExporter.export [sampleSpan] .ok).2.insertCalls = 1 ∧
    (MongoSpanExporter.export [sampleSpan] (.err ⟨"boom"⟩)).1 = .FAILURE ∧
    (MongoSpanExporter.export [sampleSpan] (.err ⟨"boom"⟩)).2.errorsLogged = 1 := by
  have h := span_export_result [sampleSpan] (by simp)
  refine ⟨by simp, ?_, ?_, ?_, ?_⟩
  · rw [h.2.1]
  · rw [h.2.1]
  · rw [h.2.2 ⟨"boom"⟩]
  · rw [h.2.2 ⟨"boom"⟩]

/-- C3 counterexample: a snapshot whose only metric has no data points
is not skipped — `MongoMetricExporter.export` issues one insert whose
single document carries an empty datapoint list. -/
theorem metric_empty_datapoints_cex :
    (MongoMetricExporter.export cexSnapshot .ok).1 = .SUCCESS ∧
    (MongoMetricExporter.export cexSnapshot .ok).2.insertCalls = 1 ∧
    (MongoMetricExporter.export cexSnapshot .ok).2.insertedDocs.map MetricDoc.data =
      [[]] := by
  refine ⟨rfl, rfl, rfl⟩

/-- C3 (amended): every inserted metric document has exactly as many
datapoints as its source metric has data points — so a metric with zero
data points is written as a document with an empty datapoint list; only
a snapshot that produces no documents at all (no metrics anywhere) is
skipped, with a success result and zero inserts. -/
theorem metric_docs_datapoint_lengths (md : MetricsData) :
    (metricDocuments md).map (fun d => d.data.length) =
      (allMetrics md).map (fun m => m.data_points.length) ∧
    (metricDocuments md = [] →
      ∀ db, MongoMetricExporter.export md db =
        (.SUCCESS, { insertCalls := 0, insertedDocs := [], errorsLogged := 0 })) := by
  constructor
  · simp only [metricDocuments, allMetrics, List.map_flatMap, List.map_map]
    congr 1
    funext rm
    congr 1
    funext sm
    simp [Function.comp, List.length_map]
  · intro hnil db
    simp [MongoMetricExporter.export, hnil]

/-- C3 amended-claim witness: lengths agree at the concrete snapshot
whose metric has no points, and the empty snapshot is skipped. -/
theorem metric_docs_datapoint_lengths_witness :
    (metricDocuments cexSnapshot).map (fun d => d.data.length) = [0] ∧
    metricDocuments { resource_metrics := [] } = [] ∧
    MongoMetricExporter.export { resource_metrics := [] } .ok =
      (.SUCCESS, { insertCalls := 0, insertedDocs := [], errorsLogged := 0 }) := by
  refine ⟨(metric_docs_datapoint_lengths cexSnapshot).1.trans rfl, rfl,
          (metric_docs_datapoint_lengths { resource_metrics := [] }).2 rfl .ok⟩

/-- C4 counterexample: with `per_page = 1` and an upstream response of
two articles, `/news` succeeds with `count = 2` — the handler performs
no truncation, so `len(articles) ≤ per_page` fails when the upstream
returns more than `per_page` articles. -/
theorem news_per_page_cex :
    (news_route (some "technology") (some 1) (.ok [rawA, rawA])).1 =
      .success newsBodyTwo ∧
    newsBodyTwo.count = newsBodyTwo.articles.length ∧
    newsBodyTwo.articles.length = 2 ∧
    ¬(newsBodyTwo.articles.length ≤ 1) := by
  refine ⟨rfl, rfl, rfl, by norm_num [newsBodyTwo]⟩

/-- C4 (amended): for every validated `per_page` in `[1, 30]` and every
tag, a successful `/news` response satisfies `count = len(articles)`,
and `len(articles)` equals the number of articles the upstream returned;
hence `len(articles) ≤ per_page` whenever the upstream honors the
`per_page` parameter (the handler itself performs no truncation). -/
theorem news_count_articles (tagP : Option String) (v : Int)
    (raw : List RawArticle) (body : NewsResponse)
    (h1 : 1 ≤ v) (h2 : v ≤ 30)
    (hb : (news_route tagP (some v) (.ok raw)).1 = .success body) :
    body.count = body.articles.length ∧
    body.articles.length = raw.length ∧
    ((raw.length : Int) ≤ v → (body.articles.length : Int) ≤ v) := by
  have hcond : (decide (1 ≤ v) && decide (v ≤ 30)) = true := by
    simp [h1, h2]
  simp only [news_route, validate_per_page, hcond, if_pos, get_news] at hb
  cases hb
  refine ⟨rfl, by simp, ?_⟩
  intro hle
  simpa using hle

/-- C4 amended-claim witness: the property at `per_page = 5` and a
one-article upstream response. -/
theorem news_count_articles_witness :
    (1 : Int) ≤ 5 ∧ (5 : Int) ≤ 30 ∧
    (news_route none (some 5) (.ok [rawA])).1 = .success newsBodyOne ∧
    newsBodyOne.count = newsBodyOne.articles.length ∧
    newsBodyOne.articles.length = 1 ∧
    ((1 : Int) ≤ 5 → (newsBodyOne.articles.length : Int) ≤ 5) := by
  have hb : (news_route none (some 5) (.ok [rawA])).1 = .success newsBodyOne := rfl
  have h := news_count_articles none 5 [rawA] newsBodyOne
    (by norm_num) (by norm_num) hb
  exact ⟨by norm_num, by norm_num, hb, h.1, h.2.1, fun _ => h.2.2 (by norm_num)⟩

/-- C5: `/news` defaults its tag to `"technology"` and `per_page` to 5;
every `per_page` outside `[1, 30]` is rejected with a 422 validation
error and an empty effect trace — no counter increment and no outbound
upstream call is made. -/
theorem per_page_bounds (tagP : Option String) (v : Int) (u : Upstream)
    (h : v < 1 ∨ 30 < v) :
    news_route tagP (some v) u = (.validationError 422, []) ∧
    news_route tagP none u = get_news (tagP.getD "technology") 5 u ∧
    (∀ pp, news_route none pp u = news_route (some "technology") pp u) := by
  have hcond : (decide (1 ≤ v) && decide (v ≤ 30)) = false := by
    rcases h with h | h
    · simp [show ¬(1 ≤ v) by omega]
    · simp [show ¬(v ≤ 30) by omega]
  refine ⟨?_, rfl, fun pp => rfl⟩
  simp [news_route, validate_per_page, hcond]

/-- C5 witness: `per_page = 0` is rejected with 422 and no effects, and
the defaults hold, at a concrete upstream. -/
theorem per_page_bounds_witness :
    ((0 : Int) < 1 ∨ 30 < (0 : Int)) ∧
    news_route none (some 0) (.ok [rawA]) = (.validationError 422, []) ∧
    news_route none none (.ok [rawA]) = get_news "technology" 5 (.ok [rawA]) := by
  have h := per_page_bounds none 0 (.ok [rawA]) (Or.inl (by norm_num))
  exact ⟨Or.inl (by norm_num), h.1, h.2.1⟩

/-- C6: an upstream HTTP error response with status `s` is surfaced by
`/news` as an `HTTPException` with exactly status `s` and the generic
detail message, and a transport-level failure (no response at all) is
surfaced as a fixed 502. -/
theorem upstream_error_mapping (tag : String) (pp : Int) (s : Nat) :
    (get_news tag pp (.httpError s)).1 =
      .httpError s "Upstream error from DEV.to API" ∧
    (get_news tag pp .transportError).1 =
      .httpError 502 "Unable to reach DEV.to API" :=
  ⟨rfl, rfl⟩

/-- C7: for every log record, a database error raised by the
single-document insert is routed by `MongoLoggingHandler.emit` into
`self.handleError(record)` — the logging subsystem's own error path —
and, `emit` being a total function of the record and the insert
outcome, no exception propagates past its boundary; a successful insert
writes the record's document. -/
theorem emit_absorbs_db_errors (record : LogRecord) :
    (∀ e, MongoLoggingHandler.emit record (.err e) = .errorHandled record) ∧
    MongoLoggingHandler.emit record .ok = .inserted (logRecordToDoc record) :=
  ⟨fun _ => rfl, rfl⟩

/-- C8: when database-handle acquisition inside `configure_telemetry`
raises a database error, the failure is logged exactly once and the
resulting wiring attaches no span exporter, no metric exporter and no
database logging handler — all telemetry is discarded and request
handling does not depend on a reachable database. -/
theorem configure_telemetry_db_failure (env : Env) (cenv : CollEnv)
    (cache : Option MongoClient) (e : PyMongoError) :
    configure_telemetry env cenv cache (.err e) =
      { errorsLogged := 1
        spanExporterCollections := []
        metricExporterCollections := []
        logHandlerCollection := none } :=
  rfl

/-- C9: when `MONGO_URI` is set (non-empty), the first `_mongo_client`
call constructs the client from the URI alone — `MongoClient.fromUri`
carries no discrete host/port/credential data — and the client is
created at most once: any cached client is returned unchanged, and any
call after the first returns exactly the client and cache the first
call produced, for every later environment. -/
theorem mongo_client_uri_and_caching (env env' : Env) (uri : String)
    (h : env.MONGO_URI = some uri) (hne : uri ≠ "") :
    (mongo_client env none).1 = .fromUri uri ∧
    (∀ c, mongo_client env' (some c) = (c, some c)) ∧
    mongo_client env' (mongo_client env none).2 =
      ((mongo_client env none).1, (mongo_client env none).2) := by
  have hfirst : mongo_client env none = (.fromUri uri, some (.fromUri uri)) := by
    simp [mongo_client, truthy, h, hne]
  exact ⟨by rw [hfirst], fun c => rfl, by rw [hfirst]; rfl⟩

/-- C9 witness: with `envW` (URI set alongside every discrete setting),
the first call yields the URI-built client, ignoring host, port and
credentials, and repeated calls reuse it. -/
theorem mongo_client_uri_and_caching_witness :
    envW.MONGO_URI = some "mongodb://db:27017" ∧
    ("mongodb://db:27017" : String) ≠ "" ∧
    (mongo_client envW none).1 = .fromUri "mongodb://db:27017" ∧
    mongo_client envW (mongo_client envW none).2 =
      ((mongo_client envW none).1, (mongo_client envW none).2) := by
  have h := mongo_client_uri_and_caching envW envW "mongodb://db:27017" rfl
    (by simp)
  exact ⟨rfl, by simp, h.1, h.2.2⟩

/-- C10: on every validated `/news` request the request counter is
incremented by 1 (tagged with the tag value) before the upstream call
is attempted — so also when the upstream call fails — and the article
counter is incremented only on the success path, by exactly the number
of articles returned. -/
theorem counters_order (tag : String) (pp : Int) :
    (∀ raw, (get_news tag pp (.ok raw)).2 =
      [.requestAdd 1 tag, .upstreamCall tag pp, .articleAdd raw.length tag]) ∧
    (∀ s, (get_news tag pp (.httpError s)).2 =
      [.requestAdd 1 tag, .upstreamCall tag pp]) ∧
    (get_news tag pp .transportError).2 =
      [.requestAdd 1 tag, .upstreamCall tag pp] := by
  refine ⟨fun raw => ?_, fun s => rfl, rfl⟩
  simp [get_news]
